import Mathlib

/-!
# Verification of the retry-failed-jobs control loop

A shallow embedding of the `RerunManager` retry/poll controller from the
retry-failed-jobs browser extension, together with proofs about its state
machine.  The repository contains three variants of the controller:

* `src/unnamed/part_000` — the richest variant (`RerunManager` with a
  cancellation reason, a cancellation nonce guarding the timeout timer, and a
  guarded post-loop); embedded in namespace `Part000`.
* `src/content-scripts/content.js` — the variant loaded by
  `background.js` (`RerunManager` with a bare `cancel()` that only sets a
  flag, an unguarded timeout timer, and an unconditional post-loop `endTime`
  stamp); embedded in namespace `ContentJs`.
* `src/content-scripts/content.backup.js` — a backup variant (`Loop`) whose
  `currentState` passes `startTime` through raw and has no `endTime` field;
  embedded in namespace `BackupJs`.

Times are modelled as natural numbers (millisecond epoch timestamps), the
uuid nonce as a natural number, and the DOM-dependent reads (`jobStatus`,
`#clickButton`) as external inputs supplied per loop iteration.  Snapshot
emission (`#sendUpdate`) is modelled by returning the list of snapshots an
operation emits.
-/

/-- The `JobStatus` enumeration (`success | failed | active | unknown`),
as produced by the status-detection oracle. -/
inductive JobStatus where
  | success
  | failed
  | active
  | unknown
deriving Repr, DecidableEq, BEq

namespace Part000

/-- `RerunManager.MAX_RETRY_COUNT` in `src/unnamed/part_000`: retry the
failed jobs at most 8 times. -/
def MAX_RETRY_COUNT : Nat := 8

/-- `RerunManager.ITER_DELAY_MILLIS`: check for the retry button every
minute. -/
def ITER_DELAY_MILLIS : Nat := 60 * 1000

/-- `RerunManager.TIMEOUT_MILLIS`: time out after 5 hours. -/
def TIMEOUT_MILLIS : Nat := 5 * 60 * 60 * 1000

/-- The private instance members of `RerunManager` in
`src/unnamed/part_000`: `#startTime`, `#endTime`, `#retries`,
`#cancelled`, `#cancellationReason`, `#cancellationNonce`.
Unset (`null`) timestamps, reason and nonce are `none`. -/
structure RerunState where
  startTime : Option Nat
  endTime : Option Nat
  retries : Nat
  cancelled : Bool
  cancellationReason : Option String
  cancellationNonce : Option Nat
deriving Repr, DecidableEq

/-- The serializable object built by the `currentState` getter and sent to
the background script by `#sendUpdate`. -/
structure Snapshot where
  running : Bool
  cancelled : Bool
  finished : Bool
  status : JobStatus
  startTime : Nat
  endTime : Nat
  retries : Nat
  cancellationReason : Option String
deriving Repr, DecidableEq

/-- The `running` getter: `#startTime != null && #endTime == null`. -/
def running (s : RerunState) : Bool :=
  s.startTime.isSome && s.endTime.isNone

/-- The `finished` getter: `#endTime != null && !#cancelled`. -/
def finished (s : RerunState) : Bool :=
  s.endTime.isSome && !s.cancelled

/-- The private `#shouldRun` getter:
`!#cancelled && #retries < RerunManager.MAX_RETRY_COUNT`. -/
def shouldRun (s : RerunState) : Bool :=
  !s.cancelled && decide (s.retries < MAX_RETRY_COUNT)

/-- The `currentState` getter: the snapshot of the current state, with
`startTime`/`endTime` encoded as `(x == null ? 0 : x.getTime())`, i.e. a
`0` sentinel for unset timestamps.  The `status` field is the `jobStatus`
DOM read performed at snapshot time, supplied here as an argument. -/
def currentState (s : RerunState) (status : JobStatus) : Snapshot :=
  { running := running s
    cancelled := s.cancelled
    finished := finished s
    status := status
    startTime := s.startTime.getD 0
    endTime := s.endTime.getD 0
    retries := s.retries
    cancellationReason := s.cancellationReason }

/-- `resetState()`: sets every private member back to its initial value. -/
def resetState : RerunState :=
  { startTime := none
    endTime := none
    retries := 0
    cancelled := false
    cancellationReason := none
    cancellationNonce := none }

/-- `cancel(reason)`: unconditionally stamps `#endTime` with the current
time, sets `#cancelled = true` and `#cancellationReason = reason`, then
emits one snapshot via `#sendUpdate`.  `now` is the `new Date()` read and
`status` the `jobStatus` read inside the emitted snapshot. -/
def cancel (s : RerunState) (reason : String) (now : Nat) (status : JobStatus) :
    RerunState × List Snapshot :=
  let s' := { s with endTime := some now
                     cancelled := true
                     cancellationReason := some reason }
  (s', [currentState s' status])

/-- The body of the `setTimeout` callback armed by `start()`: it captured
the `nonce` local at arm time and, at fire time, calls
`cancel("timed out")` only if `!#cancelled && #cancellationNonce === nonce`;
otherwise it is a no-op. -/
def timeoutCallback (s : RerunState) (nonce : Nat) (now : Nat) (status : JobStatus) :
    RerunState × List Snapshot :=
  if !s.cancelled && s.cancellationNonce == some nonce then
    cancel s "timed out" now status
  else
    (s, [])

/-- The state-mutation prefix of `start()`: `resetState()` followed by
`#startTime = new Date()` and `#cancellationNonce = nonce` (a fresh
`uuidv4()`).  Note that `start()` consults no field of the previous state
`s`: every field is overwritten. -/
def startInit (_s : RerunState) (now : Nat) (nonce : Nat) : RerunState :=
  { resetState with startTime := some now, cancellationNonce := some nonce }

/-- An external `cancel(reason)` request landing during one of the loop's
cooperative waits: the reason string, the `new Date()` read inside
`cancel`, and the `jobStatus` read inside the snapshot `cancel` emits. -/
structure CancelReq where
  reason : String
  time : Nat
  statusSeen : JobStatus
deriving Repr, DecidableEq

/-- The external inputs consumed by one iteration of the `while (shouldRun)`
loop in `start()`:

* `retryClick` — the result of `#clickButton(RETRY_BUTTON_TEXT)`, the
  unconditional first statement of the loop body;
* `confirmClick` — the result of `#clickButton(CONFIRM_BUTTON_TEXT)`,
  attempted only when `retryClick` succeeded (after the 1s settle delay);
* `statusOnMiss` — the `jobStatus` read in the `else` branch (used only to
  decide whether to log the detection warning);
* `statusOnRetry` — the `jobStatus` read inside the snapshot emitted by
  `#sendUpdate()` after a successful retry;
* `cancelEvent` — an external `cancel()` call (user- or timer-initiated)
  landing during the iteration's waits (the settle waits and the
  cancellation-polled iteration-delay sleep), if any;
* `statusAtCheck` — the `jobStatus` read by the end-of-iteration
  `if (jobStatus === SUCCESS) break` check. -/
structure IterInput where
  retryClick : Bool
  confirmClick : Bool
  statusOnMiss : JobStatus
  statusOnRetry : JobStatus
  cancelEvent : Option CancelReq
  statusAtCheck : JobStatus
deriving Repr, DecidableEq

/-- The observable outcome of one loop-body iteration: the new state, the
snapshots emitted during it, whether the iteration ended in `break`, and
whether the loop body attempted the retry-button click (it always does:
the click is the body's first statement). -/
structure IterOut where
  state : RerunState
  emits : List Snapshot
  brk : Bool
  triggerAttempted : Bool
deriving Repr

/-- One iteration of the `while (shouldRun)` loop body in `start()`
(`src/unnamed/part_000`, lines 150–208).  The body attempts
`#clickButton(RETRY_BUTTON_TEXT)` unconditionally; on success it waits 1s
and attempts `#clickButton(CONFIRM_BUTTON_TEXT)`, incrementing `#retries`
and emitting a snapshot when that also succeeds (warning only otherwise);
on failure it reads `jobStatus` and possibly warns.  The subsequent
wait-for-active block and the cancellation-polled sleep mutate no state of
their own, but an external `cancel()` may land there; the iteration ends
with the `jobStatus === SUCCESS` break check. -/
def iterate (s : RerunState) (inp : IterInput) : IterOut :=
  let (s1, em1) :=
    if inp.retryClick then
      if inp.confirmClick then
        let s' := { s with retries := s.retries + 1 }
        (s', [currentState s' inp.statusOnRetry])
      else
        (s, [])
    else
      (s, [])
  let (s2, em2) :=
    match inp.cancelEvent with
    | some c => cancel s1 c.reason c.time c.statusSeen
    | none => (s1, [])
  { state := s2
    emits := em1 ++ em2
    brk := inp.statusAtCheck == JobStatus.success
    triggerAttempted := true }

/-- The result of running the main loop over a sequence of iteration
inputs: final state, snapshots emitted, and number of loop-body
iterations executed. -/
structure RunOut where
  state : RerunState
  emits : List Snapshot
  iters : Nat
deriving Repr

/-- The `while (shouldRun)` loop of `start()`, driven by a finite sequence
of per-iteration external inputs.  The guard `#shouldRun` is evaluated
before each iteration; an iteration ending in `break` stops the loop. -/
def runLoop : RerunState → List IterInput → RunOut
  | s, [] => { state := s, emits := [], iters := 0 }
  | s, inp :: rest =>
    if shouldRun s then
      let out := iterate s inp
      if out.brk then
        { state := out.state, emits := out.emits, iters := 1 }
      else
        let r := runLoop out.state rest
        { state := r.state, emits := out.emits ++ r.emits, iters := r.iters + 1 }
    else
      { state := s, emits := [], iters := 0 }

/-- The external inputs consumed by the post-loop epilogue of `start()`:
the `jobStatus` read by the drain guard, an external `cancel()` possibly
landing during the drain wait, and the `jobStatus` read inside the final
snapshot. -/
structure PostInput where
  statusAtDrain : JobStatus
  cancelDuringDrain : Option CancelReq
  statusAtEmit : JobStatus
deriving Repr, DecidableEq

/-- The outcome of the post-loop epilogue: final state, snapshots emitted,
and whether the drain wait was entered. -/
structure PostOut where
  state : RerunState
  emits : List Snapshot
  drained : Bool
deriving Repr

/-- The post-loop epilogue of `start()` (`src/unnamed/part_000`, lines
210–227): if `!#cancelled && jobStatus === ACTIVE`, wait (cancellation-
aware) for the job to leave `ACTIVE` — the wait mutates no state, but an
external `cancel()` may land during it; then, only `if (!#cancelled)`,
stamp `#endTime = new Date()`; finally emit a snapshot via
`#sendUpdate()`. -/
def postLoop (s : RerunState) (inp : PostInput) (now : Nat) : PostOut :=
  let drained := !s.cancelled && (inp.statusAtDrain == JobStatus.active)
  let (s1, em1) :=
    if drained then
      match inp.cancelDuringDrain with
      | some c => cancel s c.reason c.time c.statusSeen
      | none => (s, [])
    else
      (s, [])
  let s2 := if !s1.cancelled then { s1 with endTime := some now } else s1
  { state := s2
    emits := em1 ++ [currentState s2 inp.statusAtEmit]
    drained := drained }

/-- The whole of `start()` as one function: reset and initialize the
state, emit the initial snapshot, run the main loop, then the post-loop
epilogue.  (The timeout timer armed between the reset and the initial
snapshot fires asynchronously and is modelled separately by
`timeoutCallback`.) -/
def start (s : RerunState) (now nonce : Nat) (status0 : JobStatus)
    (loopInputs : List IterInput) (post : PostInput) (endNow : Nat) :
    RerunState × List Snapshot :=
  let s0 := startInit s now nonce
  let r := runLoop s0 loopInputs
  let p := postLoop r.state post endNow
  (p.state, currentState s0 status0 :: (r.emits ++ p.emits))

/-- The `"action-clicked"` message handler in `main()`
(`src/unnamed/part_000`, lines 20–28): `if (loop.running)` then
`loop.cancel("cancelled by user")`, else `loop.start()`.  The `start()`
branch is modelled up to its initial snapshot; this is the only place the
running check happens — `start()` itself performs none. -/
def onActionClicked (s : RerunState) (now nonce : Nat) (status : JobStatus) :
    RerunState × List Snapshot :=
  if running s then
    cancel s "cancelled by user" now status
  else
    let s0 := startInit s now nonce
    (s0, [currentState s0 status])

end Part000

namespace ContentJs

/-- `RerunManager.#MAX_RETRY_COUNT` in `src/content-scripts/content.js`. -/
def MAX_RETRY_COUNT : Nat := 3

/-- `RerunManager.#ITER_DELAY_MILLIS` in `content.js`. -/
def ITER_DELAY_MILLIS : Nat := 60 * 1000

/-- `RerunManager.#TIMEOUT_MILLIS` in `content.js`. -/
def TIMEOUT_MILLIS : Nat := 5 * 60 * 60 * 1000

/-- The private instance members of `RerunManager` in
`src/content-scripts/content.js`: `#canceled`, `#retries`, `#startTime`,
`#endTime`.  This variant keeps no cancellation reason and no nonce. -/
structure State where
  canceled : Bool
  retries : Nat
  startTime : Option Nat
  endTime : Option Nat
deriving Repr, DecidableEq

/-- The serializable object built by `currentState` in `content.js`. -/
structure Snapshot where
  running : Bool
  canceled : Bool
  finished : Bool
  status : JobStatus
  startTime : Nat
  endTime : Nat
  retries : Nat
  elapsedMillis : Int
deriving Repr, DecidableEq

/-- The `running` getter: `#startTime != null && #endTime == null`. -/
def running (s : State) : Bool :=
  s.startTime.isSome && s.endTime.isNone

/-- The `finished` getter in `content.js`: `#endTime != null` (no
not-cancelled conjunct in this variant). -/
def finished (s : State) : Bool :=
  s.endTime.isSome

/-- The private `#shouldRun` getter:
`!#canceled && #retries < RerunManager.#MAX_RETRY_COUNT`. -/
def shouldRun (s : State) : Bool :=
  !s.canceled && decide (s.retries < MAX_RETRY_COUNT)

/-- The `elapsedMillis` getter: `end - start` when both are set,
`now - start` when only `start` is set, and `-1` otherwise. -/
def elapsedMillis (s : State) (now : Nat) : Int :=
  match s.startTime, s.endTime with
  | some st, some en => (en : Int) - (st : Int)
  | some st, none => (now : Int) - (st : Int)
  | none, _ => -1

/-- The `currentState` getter of `content.js`: `0` sentinel for unset
timestamps, `status` from the `jobStatus` DOM read, and `elapsedMillis`
computed from the clock `now`. -/
def currentState (s : State) (status : JobStatus) (now : Nat) : Snapshot :=
  { running := running s
    canceled := s.canceled
    finished := finished s
    status := status
    startTime := s.startTime.getD 0
    endTime := s.endTime.getD 0
    retries := s.retries
    elapsedMillis := elapsedMillis s now }

/-- `#reset()` in `content.js`. -/
def reset : State :=
  { canceled := false, retries := 0, startTime := none, endTime := none }

/-- `cancel()` in `content.js`: sets `#canceled = true` and nothing else —
no `endTime` stamp, no reason, no snapshot emission. -/
def cancel (s : State) : State :=
  { s with canceled := true }

/-- The body of the `setTimeout` callback armed by `start()` in
`content.js`: unconditionally sets `#canceled = true` and emits a
snapshot.  There is no nonce or cancellation check in this variant. -/
def timeoutCallback (s : State) (now : Nat) (status : JobStatus) :
    State × List Snapshot :=
  let s' := { s with canceled := true }
  (s', [currentState s' status now])

/-- The state-mutation prefix of `start()` in `content.js`: `#reset()`
followed by `#startTime = new Date()`; no check of `running` precedes
it. -/
def startInit (_s : State) (now : Nat) : State :=
  { reset with startTime := some now }

/-- The external inputs consumed by one iteration of the
`while (#shouldRun)` loop in `content.js`: the two button-click results,
the `jobStatus` read in the miss branch, whether an external `cancel()`
landed during the iteration's waits, and the `jobStatus` read by the
end-of-iteration success check. -/
structure IterInput where
  retryClick : Bool
  confirmClick : Bool
  statusOnMiss : JobStatus
  cancelDuringSleep : Bool
  statusAtCheck : JobStatus
deriving Repr, DecidableEq

/-- One iteration of the loop body in `content.js` (lines 131–168): the
retry-button click is attempted unconditionally; `#retries` is
incremented exactly when both clicks succeed (no snapshot is emitted by
the body in this variant); an external `cancel()` may land during the
cancellation-polled sleep; the iteration ends with the
`jobStatus === SUCCESS` break check. -/
def iterate (s : State) (inp : IterInput) : State × Bool :=
  let s1 :=
    if inp.retryClick && inp.confirmClick then
      { s with retries := s.retries + 1 }
    else
      s
  let s2 := if inp.cancelDuringSleep then cancel s1 else s1
  (s2, inp.statusAtCheck == JobStatus.success)

/-- The `while (#shouldRun)` loop of `start()` in `content.js`, driven by
a finite sequence of per-iteration inputs; returns the final state and
the number of loop-body iterations executed. -/
def runLoop : State → List IterInput → State × Nat
  | s, [] => (s, 0)
  | s, inp :: rest =>
    if shouldRun s then
      let (s', brk) := iterate s inp
      if brk then
        (s', 1)
      else
        let (s'', n) := runLoop s' rest
        (s'', n + 1)
    else
      (s, 0)

/-- The outcome of the `content.js` post-loop epilogue: final state, the
final snapshot, and whether the drain wait was entered. -/
structure PostOut where
  state : State
  emits : List Snapshot
  drained : Bool
deriving Repr

/-- The post-loop epilogue of `start()` in `content.js` (lines 171–183):
drain a trailing `ACTIVE` status only `while (!#canceled && ...)` (the
wait mutates no state; an external `cancel()` may land during it), then
stamp `#endTime = new Date()` unconditionally — this variant has no
not-cancelled guard on the stamp — and emit a final snapshot. -/
def postLoop (s : State) (statusAtDrain : JobStatus) (cancelDuringDrain : Bool)
    (now : Nat) (statusAtEmit : JobStatus) : PostOut :=
  let drained := !s.canceled && (statusAtDrain == JobStatus.active)
  let s1 := if drained && cancelDuringDrain then cancel s else s
  let s2 := { s1 with endTime := some now }
  { state := s2, emits := [currentState s2 statusAtEmit now], drained := drained }

end ContentJs

namespace BackupJs

/-- The private instance members of `Loop` in
`src/content-scripts/content.backup.js`. -/
structure LoopState where
  canceled : Bool
  retries : Nat
  startTime : Option Nat
  endTime : Option Nat
deriving Repr, DecidableEq

/-- The object built by `Loop.currentState` in `content.backup.js`: only
`running`, `startTime`, `retries` and `elapsedMillis` — there is no
`endTime` field, and `startTime` is passed through raw (`null`, i.e.
`none`, when unset), not converted to a `0`-sentinel integer. -/
structure Snapshot where
  running : Bool
  startTime : Option Nat
  retries : Nat
  elapsedMillis : Int
deriving Repr, DecidableEq

/-- The `running` getter of `Loop`. -/
def running (s : LoopState) : Bool :=
  s.startTime.isSome && s.endTime.isNone

/-- The `elapsedMillis` getter of `Loop`. -/
def elapsedMillis (s : LoopState) (now : Nat) : Int :=
  match s.startTime, s.endTime with
  | some st, some en => (en : Int) - (st : Int)
  | some st, none => (now : Int) - (st : Int)
  | none, _ => -1

/-- `Loop.currentState` in `content.backup.js`: `startTime` is the raw
field value. -/
def currentState (s : LoopState) (now : Nat) : Snapshot :=
  { running := running s
    startTime := s.startTime
    retries := s.retries
    elapsedMillis := elapsedMillis s now }

/-- A freshly constructed `Loop` (all field initializers). -/
def freshLoop : LoopState :=
  { canceled := false, retries := 0, startTime := none, endTime := none }

end BackupJs

/-! ### Concrete fixture states and inputs used by the closed theorems -/

/-- Fixture: a `Part000` run cancelled by the user at time 150. -/
def cancelledRunP : Part000.RerunState :=
  { startTime := some 100, endTime := some 150, retries := 2, cancelled := true,
    cancellationReason := some "cancelled by user", cancellationNonce := some 7 }

/-- Fixture: a naturally finished (not cancelled) `Part000` run whose
cancellation nonce is still the one its own `start()` armed — the state
left behind when the loop exits by success detection and no further
`start()` occurs. -/
def finishedRunP : Part000.RerunState :=
  { startTime := some 100, endTime := some 500, retries := 1, cancelled := false,
    cancellationReason := none, cancellationNonce := some 7 }

/-- Fixture: an in-progress `Part000` run with two retries executed. -/
def runningRunP : Part000.RerunState :=
  { startTime := some 100, endTime := none, retries := 2, cancelled := false,
    cancellationReason := none, cancellationNonce := some 7 }

/-- Fixture: a `Part000` loop-iteration input in which every status the
loop body reads is `success`, while both button clicks succeed. -/
def allSuccessIterP : Part000.IterInput :=
  { retryClick := true, confirmClick := true, statusOnMiss := JobStatus.success,
    statusOnRetry := JobStatus.success, cancelEvent := none,
    statusAtCheck := JobStatus.success }

/-- Fixture: a `Part000` loop-iteration input where the retry click
succeeds but the confirm click fails, with status `failed` throughout. -/
def confirmFailIterP : Part000.IterInput :=
  { retryClick := true, confirmClick := false, statusOnMiss := JobStatus.failed,
    statusOnRetry := JobStatus.failed, cancelEvent := none,
    statusAtCheck := JobStatus.failed }

/-- Fixture: a `ContentJs` loop-iteration input where the retry click
fails and the status stays `failed`, with no cancellation. -/
def inertIterC : ContentJs.IterInput :=
  { retryClick := false, confirmClick := false, statusOnMiss := JobStatus.failed,
    cancelDuringSleep := false, statusAtCheck := JobStatus.failed }

/-- Fixture: a `ContentJs` run that has been cancelled mid-run (in this
variant `cancel()` sets only the flag, so `endTime` is still unset when
the loop exits). -/
def cancelledRunC : ContentJs.State :=
  { canceled := true, retries := 1, startTime := some 100, endTime := none }

/-- Fixture: a `Part000` post-loop input: the drain guard sees status
`active`, no external cancel lands during the drain. -/
def drainInputP : Part000.PostInput :=
  { statusAtDrain := JobStatus.active, cancelDuringDrain := none,
    statusAtEmit := JobStatus.active }

/-! ## Helper lemmas -/

namespace Part000

theorem cancel_fst (s : RerunState) (r : String) (t : Nat) (st : JobStatus) :
    (cancel s r t st).1 =
      { s with endTime := some t, cancelled := true, cancellationReason := some r } :=
  rfl

theorem iterate_retries (s : RerunState) (inp : IterInput) :
    (iterate s inp).state.retries =
      if inp.retryClick && inp.confirmClick then s.retries + 1 else s.retries := by
  rcases inp with ⟨rc, cc, som, sor, ce, sac⟩
  cases rc <;> cases cc <;> cases ce <;> simp [iterate, cancel]

theorem iterate_cancelled (s : RerunState) (inp : IterInput) :
    (iterate s inp).state.cancelled = (s.cancelled || inp.cancelEvent.isSome) := by
  rcases inp with ⟨rc, cc, som, sor, ce, sac⟩
  cases rc <;> cases cc <;> cases ce <;> simp [iterate, cancel]

theorem iterate_nonce (s : RerunState) (inp : IterInput) :
    (iterate s inp).state.cancellationNonce = s.cancellationNonce := by
  rcases inp with ⟨rc, cc, som, sor, ce, sac⟩
  cases rc <;> cases cc <;> cases ce <;> simp [iterate, cancel]

theorem shouldRun_true_iff (s : RerunState) :
    shouldRun s = true ↔ s.cancelled = false ∧ s.retries < MAX_RETRY_COUNT := by
  simp [shouldRun]

theorem shouldRun_false_cancelled (s : RerunState)
    (hret : s.retries < MAX_RETRY_COUNT) (h : shouldRun s = false) :
    s.cancelled = true := by
  simp [shouldRun, hret] at h
  exact h

theorem runLoop_retries_le (l : List IterInput) (s : RerunState)
    (h : s.retries ≤ MAX_RETRY_COUNT) :
    (runLoop s l).state.retries ≤ MAX_RETRY_COUNT := by
  induction l generalizing s with
  | nil => simpa [runLoop] using h
  | cons inp rest ih =>
    by_cases hs : shouldRun s = true
    · have hlt : s.retries < MAX_RETRY_COUNT := ((shouldRun_true_iff s).mp hs).2
      have hit : (iterate s inp).state.retries ≤ s.retries + 1 := by
        rw [iterate_retries]
        split <;> omega
      by_cases hb : (iterate s inp).brk = true
      · simp only [runLoop, hs, if_true, hb]
        omega
      · simp only [runLoop, hs, if_true, Bool.not_eq_true] at hb ⊢
        simp only [hb, Bool.false_eq_true, if_false]
        exact ih _ (by omega)
    · simp only [Bool.not_eq_true] at hs
      simpa [runLoop, hs] using h

theorem runLoop_retries_of_no_confirm (l : List IterInput) (s : RerunState)
    (h : ∀ i ∈ l, i.confirmClick = false) :
    (runLoop s l).state.retries = s.retries := by
  induction l generalizing s with
  | nil => simp [runLoop]
  | cons inp rest ih =>
    have h0 : inp.confirmClick = false := h inp (by simp)
    have hrest : ∀ i ∈ rest, i.confirmClick = false := fun i hi => h i (by simp [hi])
    have hit : (iterate s inp).state.retries = s.retries := by
      rw [iterate_retries, h0]
      simp
    by_cases hs : shouldRun s = true
    · by_cases hb : (iterate s inp).brk = true
      · simpa [runLoop, hs, hb] using hit
      · simp only [Bool.not_eq_true] at hb
        simp only [runLoop, hs, if_true, hb, Bool.false_eq_true, if_false]
        rw [ih _ hrest, hit]
    · simp only [Bool.not_eq_true] at hs
      simp [runLoop, hs]

end Part000

namespace ContentJs

theorem iterate_retries_cjs (s : State) (inp : IterInput) :
    (iterate s inp).1.retries =
      if inp.retryClick && inp.confirmClick then s.retries + 1 else s.retries := by
  rcases inp with ⟨rc, cc, som, cds, sac⟩
  cases rc <;> cases cc <;> cases cds <;> simp [iterate, cancel]

theorem runLoop_retries_le_cjs (l : List IterInput) (s : State)
    (h : s.retries ≤ MAX_RETRY_COUNT) :
    (runLoop s l).1.retries ≤ MAX_RETRY_COUNT := by
  induction l generalizing s with
  | nil => simpa [runLoop] using h
  | cons inp rest ih =>
    by_cases hs : shouldRun s = true
    · have hlt : s.retries < MAX_RETRY_COUNT := by
        simp [shouldRun] at hs
        exact hs.2
      have hit : (iterate s inp).1.retries ≤ s.retries + 1 := by
        rw [iterate_retries_cjs]
        split <;> omega
      by_cases hb : (iterate s inp).2 = true
      · simp only [runLoop, hs, if_true, hb]
        omega
      · simp only [Bool.not_eq_true] at hb
        simp only [runLoop, hs, if_true, hb, Bool.false_eq_true, if_false]
        exact ih _ (by omega)
    · simp only [Bool.not_eq_true] at hs
      simpa [runLoop, hs] using h

theorem iterate_inert (s : State) (inp : IterInput)
    (h1 : inp.retryClick = false) (h2 : inp.cancelDuringSleep = false)
    (h3 : inp.statusAtCheck = JobStatus.failed) :
    iterate s inp = (s, false) := by
  simp [iterate, h1, h2, h3, cancel]
  decide

theorem runLoop_stuck (l : List IterInput) (s : State)
    (hs : s.canceled = false) (hr : s.retries = 0)
    (h : ∀ i ∈ l, i.retryClick = false ∧ i.cancelDuringSleep = false ∧
      i.statusAtCheck = JobStatus.failed) :
    runLoop s l = (s, l.length) := by
  induction l with
  | nil => simp [runLoop]
  | cons inp rest ih =>
    have h0 := h inp (by simp)
    have hrest : ∀ i ∈ rest, i.retryClick = false ∧ i.cancelDuringSleep = false ∧
        i.statusAtCheck = JobStatus.failed := fun i hi => h i (by simp [hi])
    have hsr : shouldRun s = true := by
      simp [shouldRun, hs, hr, MAX_RETRY_COUNT]
    have hit : iterate s inp = (s, false) := iterate_inert s inp h0.1 h0.2.1 h0.2.2
    simp only [runLoop, hsr, if_true, hit, Bool.false_eq_true, if_false, ih hrest]
    simp

end ContentJs

/-! ## Claim theorems -/

/-- C1: For every sequence of oracle responses and trigger/confirm
outcomes, the retry counter never exceeds the configured maximum retry
count at any point during or after a run: the loop guard requires
`retries < MAX_RETRY_COUNT` before each iteration, and each iteration
increments `retries` at most once.  Stated for both controller variants
(`part_000` with maximum 8, `content.js` with maximum 3); quantifying over
all finite input sequences covers every intermediate point of a run, since
each prefix of a run is itself such a sequence, and the post-loop code
never touches the counter. -/
theorem retries_never_exceed_max
    (s : Part000.RerunState) (l : List Part000.IterInput)
    (h : s.retries ≤ Part000.MAX_RETRY_COUNT)
    (s' : ContentJs.State) (l' : List ContentJs.IterInput)
    (h' : s'.retries ≤ ContentJs.MAX_RETRY_COUNT) :
    (Part000.runLoop s l).state.retries ≤ Part000.MAX_RETRY_COUNT ∧
    (ContentJs.runLoop s' l').1.retries ≤ ContentJs.MAX_RETRY_COUNT :=
  ⟨Part000.runLoop_retries_le l s h, ContentJs.runLoop_retries_le_cjs l' s' h'⟩

/-- Witness for C1 at concrete inputs: a fresh run driven by one
all-success iteration in each variant. -/
theorem retries_never_exceed_max_witness :
    Part000.resetState.retries ≤ Part000.MAX_RETRY_COUNT ∧
    ContentJs.reset.retries ≤ ContentJs.MAX_RETRY_COUNT ∧
    (Part000.runLoop Part000.resetState [allSuccessIterP]).state.retries
      ≤ Part000.MAX_RETRY_COUNT ∧
    (ContentJs.runLoop ContentJs.reset [inertIterC]).1.retries
      ≤ ContentJs.MAX_RETRY_COUNT := by
  refine ⟨by decide, by decide, ?_, ?_⟩
  · exact (retries_never_exceed_max Part000.resetState [allSuccessIterP] (by decide)
      ContentJs.reset [inertIterC] (by decide)).1
  · exact (retries_never_exceed_max Part000.resetState [allSuccessIterP] (by decide)
      ContentJs.reset [inertIterC] (by decide)).2

/-- C2 counterexample: in the `part_000` variant, `cancel()` called on an
already-cancelled run is not a no-op — it re-stamps `endTime` (changing a
state field) and emits a further snapshot. -/
theorem cancel_second_call_not_noop :
    cancelledRunP.cancelled = true ∧
    (Part000.cancel cancelledRunP "cancelled by user" 200 JobStatus.unknown).1.endTime
      ≠ cancelledRunP.endTime ∧
    (Part000.cancel cancelledRunP "cancelled by user" 200 JobStatus.unknown).2.length = 1 := by
  decide

/-- C2 (amended): `cancel(reason)` is unguarded — every call, including on
an already-cancelled or already-finished run, sets `cancelled = true`,
overwrites `cancellationReason` and `endTime`, and emits one snapshot; so
calling `cancel()` twice produces two cancellation snapshots (the
`cancelled` flag itself remains `true`, but the second call is not a
no-op).  In the `content.js` variant `cancel()` only sets the flag and
emits nothing. -/
theorem cancel_unconditional_effects
    (s : Part000.RerunState) (r : String) (t : Nat) (st : JobStatus) :
    (Part000.cancel s r t st).1.cancelled = true ∧
    (Part000.cancel s r t st).1.endTime = some t ∧
    (Part000.cancel s r t st).1.cancellationReason = some r ∧
    (Part000.cancel s r t st).2.length = 1 :=
  ⟨rfl, rfl, rfl, rfl⟩

/-- C3 counterexample: in the `part_000` variant the timer guard checks
only the cancelled flag and the nonce.  After a run finished naturally
(not cancelled, nonce still the one its own `start()` armed), the stale
timer still fires: it cancels the finished run, overwrites its `endTime`
and emits a snapshot — an emission after the run it belonged to has
finished. -/
theorem timeout_fires_after_natural_finish :
    Part000.finished finishedRunP = true ∧
    (Part000.timeoutCallback finishedRunP 7 999 JobStatus.success).1.cancelled = true ∧
    (Part000.timeoutCallback finishedRunP 7 999 JobStatus.success).1.endTime
      ≠ finishedRunP.endTime ∧
    (Part000.timeoutCallback finishedRunP 7 999 JobStatus.success).2.length = 1 := by
  decide

/-- C3 (amended): the timeout callback of the `part_000` variant is a
no-op whenever the run has been cancelled or the armed nonce has been
superseded (as by a subsequent `start()`, which installs a fresh nonce) —
so a stale timer cannot cancel a newer run or a cancelled run; but a timer
firing after its own run finished naturally, with no restart, still passes
the guard and cancels it.  (The `content.js` variant's timer has no guard
at all.) -/
theorem timeout_callback_guard
    (s : Part000.RerunState) (n t : Nat) (st : JobStatus)
    (h : s.cancelled = true ∨ s.cancellationNonce ≠ some n) :
    Part000.timeoutCallback s n t st = (s, []) := by
  unfold Part000.timeoutCallback
  rcases h with h | h
  · simp [h]
  · have hb : (s.cancellationNonce == some n) = false := by
      simpa using h
    simp [hb]

/-- Witness for C3 (amended) at concrete inputs: the timer is a no-op on a
cancelled run, and on a run superseded by a restart with a fresh nonce. -/
theorem timeout_callback_guard_witness :
    cancelledRunP.cancelled = true ∧
    Part000.timeoutCallback cancelledRunP 7 400 JobStatus.unknown = (cancelledRunP, []) ∧
    (Part000.startInit cancelledRunP 300 9).cancellationNonce ≠ some 7 ∧
    Part000.timeoutCallback (Part000.startInit cancelledRunP 300 9) 7 400 JobStatus.unknown
      = (Part000.startInit cancelledRunP 300 9, []) := by
  refine ⟨by decide, ?_, by decide, ?_⟩
  · exact timeout_callback_guard cancelledRunP 7 400 JobStatus.unknown (Or.inl (by decide))
  · exact timeout_callback_guard (Part000.startInit cancelledRunP 300 9) 7 400
      JobStatus.unknown (Or.inr (by decide))

/-- C4 counterexample: in an iteration where every status the loop body
reads is `success`, the recovery trigger is still attempted — the
retry-button click is the unconditional first statement of the loop body —
and, the clicks succeeding, a retry is even executed. -/
theorem trigger_attempted_despite_success :
    (Part000.iterate (Part000.startInit Part000.resetState 1000 7)
      allSuccessIterP).triggerAttempted = true ∧
    (Part000.iterate (Part000.startInit Part000.resetState 1000 7)
      allSuccessIterP).state.retries = 1 := by
  decide

/-- C4 (amended): each loop iteration attempts the recovery trigger
unconditionally, without first consulting the status oracle; the oracle is
consulted only in the branch where the trigger click fails, to decide
whether to log a detection warning; and when both the trigger and the
confirm click succeed the retry executes regardless of the reported
status. -/
theorem trigger_attempted_unconditionally
    (s : Part000.RerunState) (inp : Part000.IterInput) :
    (Part000.iterate s inp).triggerAttempted = true ∧
    (inp.retryClick = true → inp.confirmClick = true →
      (Part000.iterate s inp).state.retries = s.retries + 1) := by
  constructor
  · rcases inp with ⟨rc, cc, som, sor, ce, sac⟩
    cases rc <;> cases cc <;> cases ce <;> simp [Part000.iterate, Part000.cancel]
  · intro h1 h2
    rw [Part000.iterate_retries, h1, h2]
    simp

/-- Witness for C4 (amended) at a concrete input. -/
theorem trigger_attempted_unconditionally_witness :
    allSuccessIterP.retryClick = true ∧
    allSuccessIterP.confirmClick = true ∧
    (Part000.iterate Part000.resetState allSuccessIterP).triggerAttempted = true ∧
    (Part000.iterate Part000.resetState allSuccessIterP).state.retries
      = Part000.resetState.retries + 1 :=
  ⟨rfl, rfl, (trigger_attempted_unconditionally Part000.resetState allSuccessIterP).1,
    (trigger_attempted_unconditionally Part000.resetState allSuccessIterP).2 rfl rfl⟩

/-- C5: Whenever the trigger succeeds but the confirmation step fails in
an iteration, the retry counter is not incremented for that iteration and
the loop continues; hence if confirmation fails on every call for an
entire run, `retryCount` stays 0 and the run can terminate only via
cancellation (timeout) or an eventual `Success` status, never via budget
exhaustion: the final counter stays strictly below the budget, and the
loop guard can only become false through the cancelled flag. -/
theorem confirm_failure_consumes_no_budget
    (s : Part000.RerunState) (l : List Part000.IterInput)
    (h : ∀ i ∈ l, i.confirmClick = false) :
    (Part000.runLoop s l).state.retries = s.retries ∧
    (s.retries = 0 →
      (Part000.runLoop s l).state.retries < Part000.MAX_RETRY_COUNT ∧
      (Part000.shouldRun (Part000.runLoop s l).state = false →
        (Part000.runLoop s l).state.cancelled = true)) := by
  have hr := Part000.runLoop_retries_of_no_confirm l s h
  refine ⟨hr, fun h0 => ?_⟩
  have hlt : (Part000.runLoop s l).state.retries < Part000.MAX_RETRY_COUNT := by
    rw [hr, h0]
    decide
  exact ⟨hlt, fun hsr => Part000.shouldRun_false_cancelled _ hlt hsr⟩

/-- Witness for C5 at a concrete input: one iteration whose retry click
succeeds but whose confirm click fails. -/
theorem confirm_failure_consumes_no_budget_witness :
    (∀ i ∈ [confirmFailIterP], i.confirmClick = false) ∧
    (Part000.runLoop Part000.resetState [confirmFailIterP]).state.retries
      = Part000.resetState.retries ∧
    (Part000.runLoop Part000.resetState [confirmFailIterP]).state.retries
      < Part000.MAX_RETRY_COUNT := by
  refine ⟨by decide, ?_, ?_⟩
  · exact (confirm_failure_consumes_no_budget Part000.resetState [confirmFailIterP]
      (by decide)).1
  · exact ((confirm_failure_consumes_no_budget Part000.resetState [confirmFailIterP]
      (by decide)).2 rfl).1

/-- C6: If the oracle always returns `Failed` and the trigger always
returns `false`, the retry budget never terminates the loop: for an input
sequence of any length the loop executes every iteration, the state is
unchanged (`retries` stays 0, not cancelled), and the loop guard still
holds afterwards — so the number of iterations is unbounded by
`maxRetryCount` alone and the run ends only when the timeout callback
(which sets the cancelled flag unconditionally in this variant) fires.
Stated for the `content.js` variant the claim cites. -/
theorem budget_alone_does_not_bound_iterations
    (s : ContentJs.State) (l : List ContentJs.IterInput)
    (hs : s.canceled = false) (hr : s.retries = 0)
    (h : ∀ i ∈ l, i.retryClick = false ∧ i.cancelDuringSleep = false ∧
      i.statusAtCheck = JobStatus.failed) :
    (ContentJs.runLoop s l).1 = s ∧
    (ContentJs.runLoop s l).2 = l.length ∧
    ContentJs.shouldRun (ContentJs.runLoop s l).1 = true ∧
    (∀ t st, (ContentJs.timeoutCallback (ContentJs.runLoop s l).1 t st).1.canceled = true) := by
  have hst := ContentJs.runLoop_stuck l s hs hr h
  rw [hst]
  refine ⟨rfl, rfl, ?_, ?_⟩
  · simp [ContentJs.shouldRun, hs, hr, ContentJs.MAX_RETRY_COUNT]
  · intro t st
    rfl

/-- Witness for C6 at a concrete input: two all-failing iterations from a
fresh state leave the state unchanged with the guard still true. -/
theorem budget_alone_does_not_bound_iterations_witness :
    ContentJs.reset.canceled = false ∧
    ContentJs.reset.retries = 0 ∧
    (∀ i ∈ [inertIterC, inertIterC], i.retryClick = false ∧
      i.cancelDuringSleep = false ∧ i.statusAtCheck = JobStatus.failed) ∧
    (ContentJs.runLoop ContentJs.reset [inertIterC, inertIterC]).1 = ContentJs.reset ∧
    (ContentJs.runLoop ContentJs.reset [inertIterC, inertIterC]).2 = 2 ∧
    ContentJs.shouldRun (ContentJs.runLoop ContentJs.reset [inertIterC, inertIterC]).1
      = true := by
  have H := budget_alone_does_not_bound_iterations ContentJs.reset [inertIterC, inertIterC]
    rfl rfl (by decide)
  exact ⟨rfl, rfl, by decide, H.1, H.2.1, H.2.2.1⟩

/-- C7 counterexample: `start()` called on an in-progress run (`running`
is true) is not a no-op — its unconditional `resetState()` discards the
in-progress run's fields (here, the retry count drops from 2 to 0 and the
start time changes). -/
theorem start_resets_in_progress_run :
    Part000.running runningRunP = true ∧
    runningRunP.retries = 2 ∧
    (Part000.startInit runningRunP 200 9).retries = 0 ∧
    Part000.startInit runningRunP 200 9 ≠ runningRunP := by
  decide

/-- C7 (amended): `start()` itself performs no running check — it
unconditionally resets every state field and begins a new run even when
called on a running state; the no-op-if-running behaviour exists only at
`start()`'s call sites: the `"action-clicked"` message handler calls
`cancel("cancelled by user")` instead of `start()` when `running` is true,
so through the handler a running run is never reset (its start time and
retry count are preserved; only the cancellation fields change). -/
theorem start_unguarded_but_callers_guard
    (s : Part000.RerunState) (now nonce : Nat) (st : JobStatus)
    (h : Part000.running s = true) :
    (Part000.startInit s now nonce).retries = 0 ∧
    (Part000.startInit s now nonce).cancelled = false ∧
    (Part000.startInit s now nonce).startTime = some now ∧
    (Part000.onActionClicked s now nonce st).1.startTime = s.startTime ∧
    (Part000.onActionClicked s now nonce st).1.retries = s.retries ∧
    (Part000.onActionClicked s now nonce st).1.cancelled = true := by
  refine ⟨rfl, rfl, rfl, ?_, ?_, ?_⟩ <;>
    simp [Part000.onActionClicked, h, Part000.cancel]

/-- Witness for C7 (amended) at a concrete running state. -/
theorem start_unguarded_but_callers_guard_witness :
    Part000.running runningRunP = true ∧
    (Part000.startInit runningRunP 300 9).retries = 0 ∧
    (Part000.onActionClicked runningRunP 300 9 JobStatus.failed).1.startTime
      = runningRunP.startTime ∧
    (Part000.onActionClicked runningRunP 300 9 JobStatus.failed).1.cancelled = true := by
  have H := start_unguarded_but_callers_guard runningRunP 300 9 JobStatus.failed (by decide)
  exact ⟨by decide, H.1, H.2.2.2.1, H.2.2.2.2.2⟩

/-- C8 counterexample: in the `content.js` variant the post-loop stamps
`endTime` unconditionally — a cancelled run gets its `endTime` written on
the completion path, contradicting "stamps `endTime` on the completion
path only if the run was not cancelled". -/
theorem post_loop_stamps_despite_cancel :
    cancelledRunC.canceled = true ∧
    cancelledRunC.endTime = none ∧
    (ContentJs.postLoop cancelledRunC JobStatus.failed false 500
      JobStatus.failed).state.endTime = some 500 := by
  decide

/-- C8 (amended): in the `part_000` variant the post-loop drains a
trailing `Active` status only if the run was not cancelled and stamps
`endTime` only if the run was not cancelled, so a cancelled run's
`endTime` (set by `cancel`) is never overwritten — including when the
cancellation lands during the drain itself; in the `content.js` variant
the drain is likewise guarded, but the `endTime` stamp is unconditional
(there `cancel()` never sets `endTime`, so the post-loop stamp is the only
`endTime` write). -/
theorem post_loop_cancellation_guards
    (s : Part000.RerunState) (inp : Part000.PostInput) (now : Nat)
    (s' : ContentJs.State) (std : JobStatus) (cd : Bool) (now' : Nat) (ste : JobStatus) :
    (s.cancelled = true →
      (Part000.postLoop s inp now).drained = false ∧
      (Part000.postLoop s inp now).state.endTime = s.endTime) ∧
    (s.cancelled = false → inp.cancelDuringDrain = none →
      (Part000.postLoop s inp now).state.endTime = some now) ∧
    (∀ c, s.cancelled = false → inp.statusAtDrain = JobStatus.active →
      inp.cancelDuringDrain = some c →
      (Part000.postLoop s inp now).state.endTime = some c.time ∧
      (Part000.postLoop s inp now).state.cancelled = true) ∧
    (s'.canceled = true →
      (ContentJs.postLoop s' std cd now' ste).drained = false ∧
      (ContentJs.postLoop s' std cd now' ste).state.endTime = some now') := by
  refine ⟨fun h => ?_, fun h1 h2 => ?_, fun c h1 hact hc => ?_, fun h => ?_⟩
  · constructor <;> simp [Part000.postLoop, h]
  · cases hd : (inp.statusAtDrain == JobStatus.active) <;>
      simp [Part000.postLoop, h1, h2, hd]
  · have hb : (JobStatus.active == JobStatus.active) = true := by decide
    simp [Part000.postLoop, h1, hact, hc, Part000.cancel, hb]
  · constructor <;> simp [ContentJs.postLoop, h, ContentJs.cancel]

/-- Witness for C8 (amended) at concrete inputs: a cancelled run's
`endTime` survives the post-loop unchanged and no drain happens, while a
not-cancelled run gets `endTime` stamped. -/
theorem post_loop_cancellation_guards_witness :
    cancelledRunP.cancelled = true ∧
    (Part000.postLoop cancelledRunP drainInputP 600).drained = false ∧
    (Part000.postLoop cancelledRunP drainInputP 600).state.endTime
      = cancelledRunP.endTime ∧
    finishedRunP.cancelled = false ∧
    (Part000.postLoop finishedRunP drainInputP 600).state.endTime = some 600 := by
  have H := post_loop_cancellation_guards cancelledRunP drainInputP 600
    cancelledRunC JobStatus.failed false 500 JobStatus.failed
  have H2 := post_loop_cancellation_guards finishedRunP drainInputP 600
    cancelledRunC JobStatus.failed false 500 JobStatus.failed
  exact ⟨by decide, (H.1 (by decide)).1, (H.1 (by decide)).2, by decide,
    H2.2.1 (by decide) (by decide)⟩

/-- C9 counterexample: the backup variant's snapshot
(`content.backup.js`, `Loop.currentState`) does not use the `0` sentinel:
a snapshot of a freshly constructed loop — i.e. taken before `start()` —
carries `startTime` as the raw unset value (`null`), not `0` (and that
snapshot has no `endTime` field at all). -/
theorem backup_snapshot_startTime_null :
    (BackupJs.currentState BackupJs.freshLoop 0).startTime = none ∧
    (BackupJs.currentState BackupJs.freshLoop 0).startTime ≠ some 0 := by
  decide

/-- C9 (amended): in the `RerunManager` variants (`content.js` and
`part_000`) every emitted snapshot encodes `startTime` and `endTime` as
millisecond epoch integers with the sentinel value `0` when the
corresponding timestamp is unset — in particular a snapshot taken before
`start()` has `startTime = 0` and a snapshot of a running run has
`endTime = 0`; the backup variant (`content.backup.js`) instead passes
`startTime` through raw (null when unset) and emits no `endTime`. -/
theorem snapshot_zero_sentinel
    (s : Part000.RerunState) (st : JobStatus)
    (s' : ContentJs.State) (st' : JobStatus) (now : Nat) :
    (s.startTime = none → (Part000.currentState s st).startTime = 0) ∧
    (∀ t, s.startTime = some t → (Part000.currentState s st).startTime = t) ∧
    (s.endTime = none → (Part000.currentState s st).endTime = 0) ∧
    (Part000.running s = true → (Part000.currentState s st).endTime = 0) ∧
    (s'.startTime = none → (ContentJs.currentState s' st' now).startTime = 0) ∧
    (s'.endTime = none → (ContentJs.currentState s' st' now).endTime = 0) ∧
    (ContentJs.running s' = true → (ContentJs.currentState s' st' now).endTime = 0) := by
  refine ⟨fun h => ?_, fun t h => ?_, fun h => ?_, fun h => ?_, fun h => ?_,
    fun h => ?_, fun h => ?_⟩
  · simp [Part000.currentState, h]
  · simp [Part000.currentState, h]
  · simp [Part000.currentState, h]
  · simp only [Part000.running, Bool.and_eq_true, Option.isNone_iff_eq_none] at h
    simp [Part000.currentState, h.2]
  · simp [ContentJs.currentState, h]
  · simp [ContentJs.currentState, h]
  · simp only [ContentJs.running, Bool.and_eq_true, Option.isNone_iff_eq_none] at h
    simp [ContentJs.currentState, h.2]

/-- Witness for C9 (amended) at concrete states: a pre-`start()` snapshot
has `startTime = 0` and a running run's snapshot has `endTime = 0`. -/
theorem snapshot_zero_sentinel_witness :
    Part000.resetState.startTime = none ∧
    (Part000.currentState Part000.resetState JobStatus.unknown).startTime = 0 ∧
    Part000.running (Part000.startInit Part000.resetState 100 7) = true ∧
    (Part000.currentState (Part000.startInit Part000.resetState 100 7)
      JobStatus.unknown).endTime = 0 ∧
    (ContentJs.currentState ContentJs.reset JobStatus.unknown 0).startTime = 0 := by
  have H := snapshot_zero_sentinel Part000.resetState JobStatus.unknown
    ContentJs.reset JobStatus.unknown 0
  have H2 := snapshot_zero_sentinel (Part000.startInit Part000.resetState 100 7)
    JobStatus.unknown ContentJs.reset JobStatus.unknown 0
  exact ⟨rfl, H.1 rfl, by decide, H2.2.2.2.1 (by decide), H.2.2.2.2.1 rfl⟩

/-- C10: In every snapshot the controller can produce, `running` and
`finished` are never both true — `running` requires `endTime` unset while
`finished` requires it set — and in the `part_000` variant (whose
`finished` additionally requires not-cancelled) `finished` and `cancelled`
are also mutually exclusive.  Stated over all states, which covers every
producible snapshot. -/
theorem running_finished_mutually_exclusive
    (s : Part000.RerunState) (st : JobStatus)
    (s' : ContentJs.State) (st' : JobStatus) (now : Nat) :
    ((Part000.currentState s st).running && (Part000.currentState s st).finished)
      = false ∧
    ((Part000.currentState s st).finished && (Part000.currentState s st).cancelled)
      = false ∧
    ((ContentJs.currentState s' st' now).running
      && (ContentJs.currentState s' st' now).finished) = false := by
  refine ⟨?_, ?_, ?_⟩
  · simp only [Part000.currentState, Part000.running, Part000.finished]
    cases h : s.endTime <;> simp [h]
  · simp only [Part000.currentState, Part000.finished]
    cases h : s.cancelled <;> simp [h]
  · simp only [ContentJs.currentState, ContentJs.running, ContentJs.finished]
    cases h : s'.endTime <;> simp [h]
